import Mathlib

/-!
Shallow embedding of the per-frame simulation core of the endless runner
game in `src/app.js` (the live revision of the repository; the second
source file is an earlier revision of the same program).  JavaScript
numbers are modelled as rationals, the per-frame random draws of
`Math.random()` (each in `[0, 1)`) are passed in explicitly as oracle
arguments, and the DOM / audio / rendering side effects are omitted as
presentation-only.  All simulation state mutated by the frame loop and
the input handlers is collected in `GameState`.
-/

namespace NeonRunner

/-- `maxSpeed` from `app.js`. -/
def maxSpeed : ℚ := 10

/-- `baseMinSpeed` from `app.js`. -/
def baseMinSpeed : ℚ := 1

/-- `speedIncreaseRate = 0.0001` from `app.js`. -/
def speedIncreaseRate : ℚ := 1 / 10000

/-- `acceleration = 0.04` from `app.js`. -/
def acceleration : ℚ := 1 / 25

/-- `deceleration = 0.05` from `app.js`. -/
def deceleration : ℚ := 1 / 20

/-- `laneWidth` from `app.js`. -/
def laneWidth : ℚ := 4

/-- `roadSegmentLength` from `app.js`. -/
def roadSegmentLength : ℚ := 50

/-- `visibleSegments` from `app.js`. -/
def visibleSegments : ℚ := 25

/-- `boostMaxFuel` from `app.js`. -/
def boostMaxFuel : ℚ := 100

/-- `boostConsumeRate` from `app.js`. -/
def boostConsumeRate : ℚ := 35

/-- `boostRegenRate` from `app.js`. -/
def boostRegenRate : ℚ := 10

/-- `boostSpeedMultiplier = 1.5` from `app.js`. -/
def boostSpeedMultiplier : ℚ := 3 / 2

/-- `NEAR_MISS_THRESHOLD = 2.0` from `app.js`. -/
def nearMissThreshold : ℚ := 2

/-- `collisionMargin = 0.9` from `checkCollisionsAndNearMisses` in `app.js`. -/
def collisionMargin : ℚ := 9 / 10

/-- `car.userData.width = 1.9` from `resetGame` in `app.js`. -/
def carWidth : ℚ := 19 / 10

/-- `car.userData.depth = 3.8` from `resetGame` in `app.js`. -/
def carDepth : ℚ := 19 / 5

/-- `scoreMultiplier = 2` from `animate` in `app.js`. -/
def scoreMultiplier : ℚ := 2

/-- `spawnDistanceAhead = 280` from `animate` in `app.js`. -/
def spawnDistanceAhead : ℚ := 280

/-- An obstacle record: `building.position.x/z` and the collision
footprint stored in `building.userData` by `spawnBuildingObstacle`. -/
structure Building where
  x : ℚ
  z : ℚ
  width : ℚ
  depth : ℚ
  height : ℚ
deriving DecidableEq, Repr

/-- The mutable module-level game variables of `app.js` that the frame
loop and the input handlers read and write.  Road segments are kept as
their `position.z` values, sorted descending as in the source. -/
structure GameState where
  speed : ℚ
  targetSpeed : ℚ
  minSpeed : ℚ
  lane : ℤ
  carX : ℚ
  carZ : ℚ
  distanceTraveled : ℚ
  score : ℤ
  boostFuel : ℚ
  isBoosting : Bool
  nearMissCooldown : ℚ
  gameOver : Bool
  buildings : List Building
  roadSegments : List ℚ
  nextObstacleSpawnDistance : ℚ
deriving DecidableEq, Repr

/-- `lanePositions = [-1, 0, 1]` from `spawnBuildingObstacle`. -/
def lanePositions : List ℚ := [-1, 0, 1]

/-- The lane-selection `while` loop of `spawnBuildingObstacle`: repeatedly
splice a random element out of the available index list.  Each random
draw `r` lies in `[0, 1)`, so the source index
`Math.floor(r * available.length)` is already `< available.length`;
the `% length` below is the identity on that domain and only keeps the
Lean function total on arbitrary oracle values. -/
def pickLanes : ℕ → List ℕ → List ℚ → List ℕ
  | 0, _, _ => []
  | _ + 1, [], _ => []
  | n + 1, a :: as, rand =>
    let idx := (⌊rand.headD 0 * ((a :: as).length : ℚ)⌋).toNat % (a :: as).length
    (a :: as).getD idx 0 :: pickLanes n ((a :: as).eraseIdx idx) rand.tail

/-- One obstacle of `spawnBuildingObstacle`: randomized height
`20 + r*40` and width `3.5 + r*1.5`, depth equal to width, x position
`lanePositions[laneIndex] * laneWidth`. -/
def mkBuilding (laneIndex : ℕ) (zPosition rh rw : ℚ) : Building :=
  { x := lanePositions.getD laneIndex 0 * laneWidth
    z := zPosition
    width := 7 / 2 + rw * (3 / 2)
    depth := 7 / 2 + rw * (3 / 2)
    height := 20 + rh * 40 }

/-- The `forEach` body of `spawnBuildingObstacle`: one building per chosen
lane index.  Each iteration consumes four random draws in the source
(height, width, emissive color, emissive intensity); the two cosmetic
draws are skipped over with `drop 4`. -/
def spawnLoop (zPosition : ℚ) : List ℕ → List ℚ → List Building
  | [], _ => []
  | l :: ls, rand =>
    mkBuilding l zPosition (rand.getD 0 0) (rand.getD 1 0) :: spawnLoop zPosition ls (rand.drop 4)

/-- `spawnBuildingObstacle(zPosition)` from `app.js`: pick
`obstacleCount = 1` when the first draw is `< 0.6` else `2`, select that
many distinct lane indices out of `[0, 1, 2]` without replacement, and
create one building per chosen lane. -/
def spawnBuildingObstacle (zPosition : ℚ) (rand : List ℚ) : List Building :=
  let obstacleCount := if rand.headD 0 < 3 / 5 then 1 else 2
  spawnLoop zPosition (pickLanes obstacleCount [0, 1, 2] (rand.drop 1))
    (rand.drop (1 + obstacleCount))

/-- The shrunk axis-aligned overlap test of `checkCollisionsAndNearMisses`:
`|carX - b.x| * 2 < (carWidth + b.width) * 0.9` on both axes. -/
def collisionOverlap (carX carZ : ℚ) (b : Building) : Prop :=
  |carX - b.x| * 2 < (carWidth + b.width) * collisionMargin ∧
  |carZ - b.z| * 2 < (carDepth + b.depth) * collisionMargin

instance (carX carZ : ℚ) (b : Building) : Decidable (collisionOverlap carX carZ b) := by
  unfold collisionOverlap
  infer_instance

/-- The near-miss proximity test of `checkCollisionsAndNearMisses`:
lateral distance within combined half-widths plus `NEAR_MISS_THRESHOLD`
and longitudinal distance within combined half-depths. -/
def nearMissProx (carX carZ : ℚ) (b : Building) : Prop :=
  |carX - b.x| < carWidth / 2 + b.width / 2 + nearMissThreshold ∧
  |carZ - b.z| < carDepth / 2 + b.depth / 2

instance (carX carZ : ℚ) (b : Building) : Decidable (nearMissProx carX carZ b) := by
  unfold nearMissProx
  infer_instance

/-- Result of the obstacle loop of `checkCollisionsAndNearMisses`. -/
structure CheckResult where
  score : ℤ
  nearMissCooldown : ℚ
  gameOver : Bool
  survivors : List Building
deriving DecidableEq, Repr

/-- The `for (let i = buildings.length - 1; i >= 0; i--)` loop of
`checkCollisionsAndNearMisses` in `app.js`, as a recursion over the
buildings in iteration order (the caller passes the reversed list).
Per building: retire it if behind the cleanup threshold; otherwise end
the game and return immediately when the shrunk overlap holds and the
vehicle is not boosting; otherwise, when the cooldown is expired, a
qualifying near miss adds 50 to the score and resets the cooldown to
0.5. -/
def checkLoop (carX carZ : ℚ) (boosting : Bool) (cleanupThresholdZ : ℚ) :
    ℤ → ℚ → List Building → CheckResult
  | score, cooldown, [] => ⟨score, cooldown, false, []⟩
  | score, cooldown, b :: rest =>
    if b.z > cleanupThresholdZ then
      checkLoop carX carZ boosting cleanupThresholdZ score cooldown rest
    else if collisionOverlap carX carZ b ∧ boosting = false then
      ⟨score, cooldown, true, b :: rest⟩
    else if cooldown ≤ 0 ∧ nearMissProx carX carZ b ∧ ¬collisionOverlap carX carZ b then
      let r := checkLoop carX carZ boosting cleanupThresholdZ (score + 50) (1 / 2) rest
      ⟨r.score, r.nearMissCooldown, r.gameOver, b :: r.survivors⟩
    else
      let r := checkLoop carX carZ boosting cleanupThresholdZ score cooldown rest
      ⟨r.score, r.nearMissCooldown, r.gameOver, b :: r.survivors⟩

/-- `checkCollisionsAndNearMisses()` from `app.js`: no-op when the game is
already over; otherwise decrement the near-miss cooldown by `delta` when
positive and run the building loop (`cleanupThresholdZ = carZ + 100`).
The source iterates the `buildings` array from its last index down to 0,
hence the `reverse`; surviving buildings keep their relative order. -/
def checkCollisionsAndNearMisses (s : GameState) (delta : ℚ) : GameState :=
  if s.gameOver then s
  else
    let cooldown0 :=
      if s.nearMissCooldown > 0 then s.nearMissCooldown - delta else s.nearMissCooldown
    let r := checkLoop s.carX s.carZ s.isBoosting (s.carZ + 100) s.score cooldown0
      s.buildings.reverse
    { s with
      score := r.score
      nearMissCooldown := r.nearMissCooldown
      gameOver := r.gameOver
      buildings := r.survivors.reverse }

/-- The boost fuel block of `animate` in `app.js`: while boosting consume
`boostConsumeRate * delta` and force-clear the flag with fuel clamped to
0 when it reaches `<= 0`; while not boosting regenerate
`boostRegenRate * delta` clamped to `boostMaxFuel`.  Returns the new
fuel and boosting flag. -/
def boostTick (fuel : ℚ) (boosting : Bool) (delta : ℚ) : ℚ × Bool :=
  if boosting then
    let fuel1 := fuel - boostConsumeRate * delta
    if fuel1 ≤ 0 then (0, false) else (fuel1, true)
  else
    (min boostMaxFuel (fuel + boostRegenRate * delta), false)

/-- The speed-easing block of `animate` in `app.js`: accelerate toward
`targetSpeed` clamped to `currentMaxSpeed`, or decelerate clamped to the
current `minSpeed` floor, then the final clamp
`speed = Math.min(speed, currentMaxSpeed)`. -/
def updateSpeed (speed targetSpeed minSpeed currentMaxSpeed currentAcceleration : ℚ) : ℚ :=
  let s1 :=
    if speed < targetSpeed then min (speed + currentAcceleration) currentMaxSpeed
    else if speed > targetSpeed then max (speed - deceleration) minSpeed
    else speed
  min s1 currentMaxSpeed

/-- Insertion step for the descending sort used on `roadSegments`
(`sort((a, b) => b.position.z - a.position.z)`). -/
def insertDesc (x : ℚ) : List ℚ → List ℚ
  | [] => [x]
  | y :: ys => if y ≤ x then x :: y :: ys else y :: insertDesc x ys

/-- Descending sort of road segment positions. -/
def sortDesc : List ℚ → List ℚ
  | [] => []
  | x :: xs => insertDesc x (sortDesc xs)

/-- The road-management block of `animate` plus `cleanupOldRoadSegments`
from `app.js`: when the collection is nonempty, extend coverage with one
segment beyond the farthest (last, smallest-z) segment whenever the car
is within `visibleSegments/2 * roadSegmentLength` of it; when empty,
seed one segment at `carZ - roadSegmentLength * (visibleSegments / 2)`;
then retire every segment behind
`carZ + roadSegmentLength * (visibleSegments / 2 + 4)` and re-sort. -/
def updateRoadSegments (carZ : ℚ) (segs : List ℚ) : List ℚ :=
  let segs1 :=
    match segs.getLast? with
    | some farthestRoadZ =>
      if carZ < farthestRoadZ + roadSegmentLength * (visibleSegments / 2) then
        sortDesc (segs ++ [farthestRoadZ - roadSegmentLength])
      else segs
    | none => sortDesc [carZ - roadSegmentLength * (visibleSegments / 2)]
  sortDesc (segs1.filter fun z => z ≤ carZ + roadSegmentLength * (visibleSegments / 2 + 4))

/-- The state reached by one pass of `animate` in `app.js` just before
`checkCollisionsAndNearMisses()` is called, in source order: continuous
score increment `floor(speed^2 * delta * 2)` from the pre-update speed;
`minSpeed = baseMinSpeed + distanceTraveled * speedIncreaseRate` and
`targetSpeed = max(targetSpeed, minSpeed)`; `currentMaxSpeed` and
`currentAcceleration` (factor 1.8 while boosting) read from the
pre-tick boosting flag; the boost fuel tick; the speed easing; car
movement `carZ -= speed`, `distanceTraveled += speed` and lateral
easing by 20% toward `lane * laneWidth`; road segment coverage and
retirement; and the obstacle spawn when `distanceTraveled` passed
`nextObstacleSpawnDistance`, with the spawn interval drawn from
`[currentMinInterval, currentMaxInterval]` (both shrinking with
distance, clamped to floors 50 and 100). -/
def midState (s : GameState) (delta : ℚ) (rand : List ℚ) (rSpawnInterval : ℚ) : GameState :=
  let score1 := s.score + ⌊s.speed ^ 2 * delta * scoreMultiplier⌋
  let minSpeed1 := baseMinSpeed + s.distanceTraveled * speedIncreaseRate
  let targetSpeed1 := max s.targetSpeed minSpeed1
  let currentMaxSpeed := if s.isBoosting then maxSpeed * boostSpeedMultiplier else maxSpeed
  let currentAcceleration := if s.isBoosting then acceleration * (9 / 5) else acceleration
  let fb := boostTick s.boostFuel s.isBoosting delta
  let speed1 := updateSpeed s.speed targetSpeed1 minSpeed1 currentMaxSpeed currentAcceleration
  let carX1 := s.carX + ((s.lane : ℚ) * laneWidth - s.carX) * (1 / 5)
  let carZ1 := s.carZ - speed1
  let dist1 := s.distanceTraveled + speed1
  let segs1 := updateRoadSegments carZ1 s.roadSegments
  let currentMinInterval := max 50 (90 - dist1 * (1 / 100))
  let currentMaxInterval := max 100 (180 - dist1 * (1 / 50))
  let doSpawn := dist1 > s.nextObstacleSpawnDistance
  let buildings1 :=
    if doSpawn then s.buildings ++ spawnBuildingObstacle (carZ1 - spawnDistanceAhead) rand
    else s.buildings
  let nextSpawn1 :=
    if doSpawn then
      s.nextObstacleSpawnDistance +
        (currentMinInterval + rSpawnInterval * (currentMaxInterval - currentMinInterval))
    else s.nextObstacleSpawnDistance
  { s with
    score := score1
    minSpeed := minSpeed1
    targetSpeed := targetSpeed1
    boostFuel := fb.1
    isBoosting := fb.2
    speed := speed1
    carX := carX1
    carZ := carZ1
    distanceTraveled := dist1
    roadSegments := segs1
    buildings := buildings1
    nextObstacleSpawnDistance := nextSpawn1 }

/-- One full pass of `animate` in `app.js`: a no-op when `gameOver` is
set (the loop body returns immediately), otherwise the kinematics,
resource, road and spawn updates of `midState` followed by
`checkCollisionsAndNearMisses()`. -/
def animateFrame (s : GameState) (delta : ℚ) (rand : List ℚ) (rSpawnInterval : ℚ) : GameState :=
  if s.gameOver then s
  else checkCollisionsAndNearMisses (midState s delta rand rSpawnInterval) delta

/-- The discrete input intents of the `keydown` listener in `app.js`. -/
inductive Key where
  | left
  | right
  | up
  | down
  | shift
deriving DecidableEq, Repr

/-- The `keydown` listener of `app.js`: ignored when the game is over;
lane changes clamped to `[-1, 1]`; speed up clamped to `maxSpeed`;
speed down clamped to the current `minSpeed`; `Shift` sets the boosting
flag only when `boostFuel > 10`. -/
def keydown (s : GameState) (k : Key) : GameState :=
  if s.gameOver then s
  else
    match k with
    | Key.left => if s.lane > -1 then { s with lane := s.lane - 1 } else s
    | Key.right => if s.lane < 1 then { s with lane := s.lane + 1 } else s
    | Key.up => { s with targetSpeed := min (s.targetSpeed + 1 / 2) maxSpeed }
    | Key.down => { s with targetSpeed := max (s.targetSpeed - 1 / 2) s.minSpeed }
    | Key.shift => if s.boostFuel > 10 then { s with isBoosting := true } else s

/-- The `keyup` listener of `app.js`: releasing `Shift` clears the
boosting flag (ignored when the game is over). -/
def keyup (s : GameState) (k : Key) : GameState :=
  if s.gameOver then s
  else
    match k with
    | Key.shift => { s with isBoosting := false }
    | _ => s

/-! ### Concrete states used for witnesses and counterexamples -/

/-- A building squarely in the vehicle lane at the vehicle position. -/
def demoBuilding : Building :=
  { x := 0, z := 0, width := 7 / 2, depth := 7 / 2, height := 20 }

/-- A concrete running state whose vehicle overlaps `demoBuilding`. -/
def demoState : GameState :=
  { speed := 2, targetSpeed := 2, minSpeed := 1, lane := 0, carX := 0, carZ := 0,
    distanceTraveled := 0, score := 0, boostFuel := 100, isBoosting := false,
    nearMissCooldown := 0, gameOver := false, buildings := [demoBuilding],
    roadSegments := [], nextObstacleSpawnDistance := 60 }

/-- `demoState` with the boosting flag set. -/
def demoStateBoost : GameState := { demoState with isBoosting := true }

/-- A running state with low boost fuel. -/
def lowFuelState : GameState := { demoState with boostFuel := 5 }

/-- A running state inside an active near-miss cooldown window. -/
def coolState : GameState :=
  { demoState with nearMissCooldown := 1 / 2, buildings := [] }

/-- A running state just after the boosting flag cleared, with residual
boost speed 15. -/
def boostEndState : GameState :=
  { demoState with speed := 15, targetSpeed := 10, buildings := [] }

/-- A late-session state: distance 110000 puts the minimum-speed floor at
12, above `maxSpeed`; speed 14 is residual boost speed from a boost that
just ended. -/
def highFloorState : GameState :=
  { speed := 14, targetSpeed := 12, minSpeed := 12, lane := 0, carX := 0, carZ := 0,
    distanceTraveled := 110000, score := 0, boostFuel := 100, isBoosting := false,
    nearMissCooldown := 0, gameOver := false, buildings := [], roadSegments := [0],
    nextObstacleSpawnDistance := 200000 }

/-- A running state with an empty road-segment collection. -/
def emptyRoadState : GameState :=
  { speed := 0, targetSpeed := 2, minSpeed := 1, lane := 0, carX := 0, carZ := 5,
    distanceTraveled := 0, score := 0, boostFuel := 100, isBoosting := false,
    nearMissCooldown := 0, gameOver := false, buildings := [], roadSegments := [],
    nextObstacleSpawnDistance := 60 }

/-! ### Helper lemmas about the collision loop and the frame pieces -/

/-- While boosting, the obstacle loop never reports a game-ending
collision: the `!isBoosting` guard in the source is on every path to
`endGame`. -/
lemma checkLoop_gameOver_boosting (carX carZ cT : ℚ) (L : List Building) :
    ∀ (score : ℤ) (cd : ℚ),
      (checkLoop carX carZ true cT score cd L).gameOver = false := by
  induction L with
  | nil => intro score cd; simp [checkLoop]
  | cons b rest ih =>
    intro score cd
    rw [checkLoop]
    split_ifs with h1 h2 h3
    · exact ih score cd
    · exact absurd h2.2 (by simp)
    · simpa using ih (score + 50) (1 / 2)
    · simpa using ih score cd

/-- With a strictly positive cooldown, the obstacle loop changes neither
the score nor the cooldown (the near-miss branch is gated on
`cooldown <= 0`). -/
lemma checkLoop_frozen_of_pos (carX carZ : ℚ) (bo : Bool) (cT : ℚ) (L : List Building) :
    ∀ (score : ℤ) (cd : ℚ), 0 < cd →
      (checkLoop carX carZ bo cT score cd L).score = score ∧
      (checkLoop carX carZ bo cT score cd L).nearMissCooldown = cd := by
  induction L with
  | nil => intro score cd _; simp [checkLoop]
  | cons b rest ih =>
    intro score cd hcd
    rw [checkLoop]
    split_ifs with h1 h2 h3
    · exact ih score cd hcd
    · simp
    · exact absurd hcd (by simpa using h3.1)
    · simpa using ih score cd hcd

/-- The obstacle loop either leaves score and cooldown untouched, or adds
exactly 50 to the score and leaves the cooldown at 0.5: a first
qualifying near miss resets the cooldown to 0.5, which blocks every
later building in the same pass. -/
lemma checkLoop_score_cases (carX carZ : ℚ) (bo : Bool) (cT : ℚ) (L : List Building) :
    ∀ (score : ℤ) (cd : ℚ),
      ((checkLoop carX carZ bo cT score cd L).score = score ∧
        (checkLoop carX carZ bo cT score cd L).nearMissCooldown = cd) ∨
      ((checkLoop carX carZ bo cT score cd L).score = score + 50 ∧
        (checkLoop carX carZ bo cT score cd L).nearMissCooldown = 1 / 2) := by
  induction L with
  | nil => intro score cd; left; simp [checkLoop]
  | cons b rest ih =>
    intro score cd
    rw [checkLoop]
    split_ifs with h1 h2 h3
    · exact ih score cd
    · left; simp
    · right
      have hfrozen := checkLoop_frozen_of_pos carX carZ bo cT rest (score + 50) (1 / 2)
        (by norm_num)
      simpa using hfrozen
    · simpa using ih score cd

/-- When the vehicle is not boosting and some building in the list is
both live (not behind the cleanup threshold) and overlapping under the
shrunk test, the loop ends the game. -/
lemma checkLoop_gameOver_of_overlap (carX carZ cT : ℚ) (L : List Building) :
    ∀ (score : ℤ) (cd : ℚ) (b : Building), b ∈ L → ¬b.z > cT →
      collisionOverlap carX carZ b →
      (checkLoop carX carZ false cT score cd L).gameOver = true := by
  induction L with
  | nil => intro _ _ b hb; exact absurd hb (List.not_mem_nil b)
  | cons b0 rest ih =>
    intro score cd b hb hlive hover
    rw [checkLoop]
    split_ifs with h1 h2 h3
    · rcases List.mem_cons.1 hb with rfl | hmem
      · exact absurd h1 hlive
      · exact ih score cd b hmem hlive hover
    · simp
    · rcases List.mem_cons.1 hb with rfl | hmem
      · exact absurd ⟨hover, rfl⟩ h2
      · simpa using ih (score + 50) (1 / 2) b hmem hlive hover
    · rcases List.mem_cons.1 hb with rfl | hmem
      · exact absurd ⟨hover, rfl⟩ h2
      · simpa using ih score cd b hmem hlive hover

/-- `checkCollisionsAndNearMisses` only writes score, cooldown, game-over
flag and the building list; every kinematic field is untouched. -/
lemma check_preserves (s : GameState) (delta : ℚ) :
    (checkCollisionsAndNearMisses s delta).speed = s.speed ∧
    (checkCollisionsAndNearMisses s delta).targetSpeed = s.targetSpeed ∧
    (checkCollisionsAndNearMisses s delta).minSpeed = s.minSpeed ∧
    (checkCollisionsAndNearMisses s delta).distanceTraveled = s.distanceTraveled ∧
    (checkCollisionsAndNearMisses s delta).boostFuel = s.boostFuel ∧
    (checkCollisionsAndNearMisses s delta).isBoosting = s.isBoosting ∧
    (checkCollisionsAndNearMisses s delta).roadSegments = s.roadSegments ∧
    (checkCollisionsAndNearMisses s delta).carZ = s.carZ ∧
    (checkCollisionsAndNearMisses s delta).carX = s.carX := by
  unfold checkCollisionsAndNearMisses
  split_ifs <;> simp

/-- The collision-and-near-miss pass never lowers the score. -/
lemma check_score_ge (s : GameState) (delta : ℚ) :
    s.score ≤ (checkCollisionsAndNearMisses s delta).score := by
  by_cases hg : s.gameOver
  · simp [checkCollisionsAndNearMisses, hg]
  · simp only [checkCollisionsAndNearMisses, hg, Bool.false_eq_true, if_false]
    rcases checkLoop_score_cases s.carX s.carZ s.isBoosting (s.carZ + 100) s.buildings.reverse
      s.score (if s.nearMissCooldown > 0 then s.nearMissCooldown - delta
        else s.nearMissCooldown) with hc | hc
    · simp [hc.1]
    · simp [hc.1]

/-- When the game is not over, a frame is the kinematics phase followed by
the collision pass. -/
lemma animateFrame_eq (s : GameState) (delta : ℚ) (rand : List ℚ) (rIv : ℚ)
    (h : s.gameOver = false) :
    animateFrame s delta rand rIv =
      checkCollisionsAndNearMisses (midState s delta rand rIv) delta := by
  simp [animateFrame, h]

/-- The speed produced by the kinematics phase, written out. -/
lemma midState_speed (s : GameState) (delta : ℚ) (rand : List ℚ) (rIv : ℚ) :
    (midState s delta rand rIv).speed =
      updateSpeed s.speed
        (max s.targetSpeed (baseMinSpeed + s.distanceTraveled * speedIncreaseRate))
        (baseMinSpeed + s.distanceTraveled * speedIncreaseRate)
        (if s.isBoosting then maxSpeed * boostSpeedMultiplier else maxSpeed)
        (if s.isBoosting then acceleration * (9 / 5) else acceleration) := rfl

/-- The speed-easing step never exceeds the current maximum: the final
clamp is `Math.min(speed, currentMaxSpeed)`. -/
lemma updateSpeed_le_max (speed ts ms cm ca : ℚ) :
    updateSpeed speed ts ms cm ca ≤ cm := by
  unfold updateSpeed
  exact min_le_right _ _

/-- The speed-easing step keeps the speed nonnegative. -/
lemma updateSpeed_nonneg (speed ts ms cm ca : ℚ)
    (hs : 0 ≤ speed) (hms : 0 ≤ ms) (hcm : 0 ≤ cm) (hca : 0 ≤ ca) :
    0 ≤ updateSpeed speed ts ms cm ca := by
  unfold updateSpeed
  split_ifs with h1 h2
  · exact le_inf (le_inf (by linarith) hcm) hcm
  · exact le_inf (le_trans hms le_sup_right) hcm
  · exact le_inf hs hcm

/-- In the deceleration case, the speed stays above
`min minSpeed currentMaxSpeed`. -/
lemma updateSpeed_decel_ge (speed ts ms cm ca : ℚ) (h : ts < speed) :
    min ms cm ≤ updateSpeed speed ts ms cm ca := by
  unfold updateSpeed
  rw [if_neg (not_lt.2 h.le), if_pos h]
  exact inf_le_inf le_sup_right le_rfl

/-- Once the incoming speed exceeds `maxSpeed + deceleration` and the
current maximum is `maxSpeed`, the step lands exactly on `maxSpeed`. -/
lemma updateSpeed_snap (speed ts ms ca : ℚ) (hca : 0 ≤ ca)
    (h : maxSpeed + deceleration ≤ speed) :
    updateSpeed speed ts ms maxSpeed ca = maxSpeed := by
  have hdec : (0 : ℚ) ≤ deceleration := by norm_num [deceleration]
  have h10 : maxSpeed ≤ speed := by linarith
  unfold updateSpeed
  split_ifs with h1 h2
  · exact inf_eq_right.2 (le_inf (by linarith) le_rfl)
  · exact inf_eq_right.2 (le_trans (by linarith) le_sup_left)
  · exact inf_eq_right.2 h10

/-! ### Lane-selection lemmas for the spawner -/

/-- The element spliced out of a duplicate-free list is no longer a
member of the remainder. -/
lemma getD_not_mem_eraseIdx :
    ∀ (l : List ℕ) (i : ℕ), i < l.length → l.Nodup → l.getD i 0 ∉ l.eraseIdx i
  | [], i, h, _ => absurd h (by simp)
  | x :: xs, 0, _, hnd => by simpa using (List.nodup_cons.1 hnd).1
  | x :: xs, i + 1, h, hnd => by
    have hi : i < xs.length := by simpa using h
    have hx : x ∉ xs := (List.nodup_cons.1 hnd).1
    simp only [List.getD_cons_succ, List.eraseIdx_cons_succ, List.mem_cons]
    push_neg
    refine ⟨?_, getD_not_mem_eraseIdx xs i hi (List.nodup_cons.1 hnd).2⟩
    intro heq
    have hmem : xs.getD i 0 ∈ xs := by
      rw [List.getD_eq_getElem xs 0 hi]
      exact List.getElem_mem hi
    rw [heq] at hmem
    exact hx hmem

/-- Every lane index picked by the selection loop comes from the
available list. -/
lemma pickLanes_subset :
    ∀ (c : ℕ) (avail : List ℕ) (r : List ℚ), ∀ x ∈ pickLanes c avail r, x ∈ avail := by
  intro c
  induction c with
  | zero => intro avail r x hx; simp [pickLanes] at hx
  | succ n ih =>
    intro avail r x hx
    cases avail with
    | nil => simp [pickLanes] at hx
    | cons a as =>
      rw [pickLanes] at hx
      rcases List.mem_cons.1 hx with h | h
      · have hlt : (⌊r.headD 0 * ((a :: as).length : ℚ)⌋).toNat % (a :: as).length <
            (a :: as).length := Nat.mod_lt _ (by simp)
        rw [h, List.getD_eq_getElem (a :: as) 0 hlt]
        exact List.getElem_mem hlt
      · exact (List.eraseIdx_sublist (a :: as) _).subset (ih _ _ x h)

/-- The lane indices picked by the selection loop are pairwise distinct:
the loop selects without replacement. -/
lemma pickLanes_nodup :
    ∀ (c : ℕ) (avail : List ℕ) (r : List ℚ), avail.Nodup → (pickLanes c avail r).Nodup := by
  intro c
  induction c with
  | zero => intro avail r _; simp [pickLanes]
  | succ n ih =>
    intro avail r hnd
    cases avail with
    | nil => simp [pickLanes]
    | cons a as =>
      rw [pickLanes]
      have hlt : (⌊r.headD 0 * ((a :: as).length : ℚ)⌋).toNat % (a :: as).length <
          (a :: as).length := Nat.mod_lt _ (by simp)
      refine List.nodup_cons.2 ⟨?_, ih _ _ ((List.eraseIdx_sublist (a :: as) _).nodup hnd)⟩
      intro hmem
      exact getD_not_mem_eraseIdx (a :: as) _ hlt hnd (pickLanes_subset n _ _ _ hmem)

/-- The selection loop yields `min c avail.length` lane indices. -/
lemma pickLanes_length :
    ∀ (c : ℕ) (avail : List ℕ) (r : List ℚ),
      (pickLanes c avail r).length = min c avail.length := by
  intro c
  induction c with
  | zero => intro avail r; simp [pickLanes]
  | succ n ih =>
    intro avail r
    cases avail with
    | nil => simp [pickLanes]
    | cons a as =>
      have hlt : (⌊r.headD 0 * ((a :: as).length : ℚ)⌋).toNat % (a :: as).length <
          (a :: as).length := Nat.mod_lt _ (by simp)
      simp only [List.length_cons] at hlt
      rw [pickLanes]
      simp only [List.length_cons, ih, List.length_eraseIdx]
      split <;> omega

/-- The spawn body maps each chosen lane index to a building whose x
position is the lane world offset. -/
lemma spawnLoop_map_x (zPosition : ℚ) :
    ∀ (ls : List ℕ) (r : List ℚ),
      (spawnLoop zPosition ls r).map Building.x =
        ls.map fun i => lanePositions.getD i 0 * laneWidth := by
  intro ls
  induction ls with
  | nil => intro r; simp [spawnLoop]
  | cons l ls ih => intro r; simp [spawnLoop, mkBuilding, ih]

/-- The spawn body creates one building per chosen lane index. -/
lemma spawnLoop_length (zPosition : ℚ) :
    ∀ (ls : List ℕ) (r : List ℚ), (spawnLoop zPosition ls r).length = ls.length := by
  intro ls
  induction ls with
  | nil => intro r; simp [spawnLoop]
  | cons l ls ih => intro r; simp [spawnLoop, ih]

/-! ### Claim theorems -/

/-- C1: in any frame whose collision pass sees a live obstacle
overlapping the vehicle on both axes under the shrunk 0.9-margin test,
the session is never terminated while the boosting flag is true, and is
terminated within that same pass (`endGame` sets the game-over flag and
the loop returns without checking further obstacles) when the boosting
flag is false. -/
theorem boost_phase_through_collision (s : GameState) (delta : ℚ)
    (hover : s.gameOver = false) :
    (s.isBoosting = true → (checkCollisionsAndNearMisses s delta).gameOver = false) ∧
    (s.isBoosting = false → ∀ b ∈ s.buildings, ¬b.z > s.carZ + 100 →
      collisionOverlap s.carX s.carZ b →
      (checkCollisionsAndNearMisses s delta).gameOver = true) := by
  constructor
  · intro hb
    simp only [checkCollisionsAndNearMisses, hover, Bool.false_eq_true, if_false, hb]
    exact checkLoop_gameOver_boosting _ _ _ _ _ _
  · intro hb b hmem hlive hoverl
    simp only [checkCollisionsAndNearMisses, hover, Bool.false_eq_true, if_false, hb]
    exact checkLoop_gameOver_of_overlap s.carX s.carZ (s.carZ + 100) s.buildings.reverse _ _ b
      (List.mem_reverse.2 hmem) hlive hoverl

/-- Witness for C1: with the vehicle on top of `demoBuilding`, the
boosting state survives the collision pass and the non-boosting state
ends the game in that pass. -/
theorem boost_phase_through_collision_witness :
    (checkCollisionsAndNearMisses demoStateBoost 1).gameOver = false ∧
    (checkCollisionsAndNearMisses demoState 1).gameOver = true := by
  constructor
  · exact (boost_phase_through_collision demoStateBoost 1 rfl).1 rfl
  · exact (boost_phase_through_collision demoState 1 rfl).2 rfl demoBuilding
      (by simp [demoState])
      (by norm_num [demoState, demoBuilding])
      (by norm_num [demoState, demoBuilding, collisionOverlap, carWidth, carDepth,
        collisionMargin])

/-- C3: after the boost tick, fuel stays in `[0, boostMaxFuel]`; fuel
never increases while boosting and never decreases while not boosting;
it strictly decreases while boosting and strictly increases while not
boosting except at the clamped bounds; and the boosting flag is
force-cleared with fuel clamped to 0 the moment consumption reaches a
non-positive level. -/
theorem boost_fuel_bounds (fuel : ℚ) (boosting : Bool) (delta : ℚ)
    (h0 : 0 ≤ fuel) (h1 : fuel ≤ boostMaxFuel) (hd : 0 ≤ delta) :
    0 ≤ (boostTick fuel boosting delta).1 ∧
    (boostTick fuel boosting delta).1 ≤ boostMaxFuel ∧
    (boosting = true → (boostTick fuel boosting delta).1 ≤ fuel) ∧
    (boosting = false → fuel ≤ (boostTick fuel boosting delta).1) ∧
    (boosting = true → 0 < delta → 0 < fuel → (boostTick fuel boosting delta).1 < fuel) ∧
    (boosting = false → 0 < delta → fuel < boostMaxFuel →
      fuel < (boostTick fuel boosting delta).1) ∧
    (boosting = true → fuel - boostConsumeRate * delta ≤ 0 →
      (boostTick fuel boosting delta).2 = false ∧ (boostTick fuel boosting delta).1 = 0) := by
  have hcr : (0 : ℚ) ≤ boostConsumeRate * delta := by
    have : (0 : ℚ) ≤ boostConsumeRate := by norm_num [boostConsumeRate]
    positivity
  have hrr : (0 : ℚ) ≤ boostRegenRate * delta := by
    have : (0 : ℚ) ≤ boostRegenRate := by norm_num [boostRegenRate]
    positivity
  cases boosting with
  | false =>
    simp only [boostTick, Bool.false_eq_true, if_false]
    refine ⟨le_inf (by norm_num [boostMaxFuel]) (by linarith), inf_le_left,
      by intro h; exact absurd h (by simp), fun _ => le_inf h1 (by linarith),
      by intro h; exact absurd h (by simp), fun _ hd0 hlt => ?_,
      by intro h; exact absurd h (by simp)⟩
    have h10 : (0 : ℚ) < boostRegenRate := by norm_num [boostRegenRate]
    exact lt_inf_iff.2 ⟨hlt, by nlinarith⟩
  | true =>
    simp only [boostTick, if_true]
    split_ifs with hle
    · refine ⟨le_rfl, by norm_num [boostMaxFuel], fun _ => h0, ?_, fun _ _ hf => hf, ?_, ?_⟩
      · intro h; exact absurd h (by simp)
      · intro h; exact absurd h (by simp)
      · exact fun _ _ => ⟨rfl, rfl⟩
    · push_neg at hle
      have h35 : (0 : ℚ) < boostConsumeRate := by norm_num [boostConsumeRate]
      dsimp only
      refine ⟨le_of_lt hle, by linarith, fun _ => by linarith, ?_, fun _ hd0 _ => by nlinarith,
        ?_, fun _ hc => absurd hc (by linarith)⟩
      · intro h; exact absurd h (by simp)
      · intro h; exact absurd h (by simp)

/-- Witness for C3: one boosting tick from half fuel. -/
theorem boost_fuel_bounds_witness :
    0 ≤ (boostTick 50 true 1).1 ∧ (boostTick 50 true 1).1 ≤ boostMaxFuel :=
  ⟨(boost_fuel_bounds 50 true 1 (by norm_num) (by norm_num [boostMaxFuel]) (by norm_num)).1,
    (boost_fuel_bounds 50 true 1 (by norm_num) (by norm_num [boostMaxFuel])
      (by norm_num)).2.1⟩

/-- C8: within a single spawn event the chosen lanes are pairwise
distinct, so the one or two buildings created occupy different lanes
(their x positions are distinct); the event creates exactly one or two
obstacles. -/
theorem spawn_lanes_distinct (zPosition : ℚ) (rand : List ℚ) :
    ((spawnBuildingObstacle zPosition rand).map Building.x).Nodup ∧
    ((spawnBuildingObstacle zPosition rand).length = 1 ∨
      (spawnBuildingObstacle zPosition rand).length = 2) := by
  unfold spawnBuildingObstacle
  constructor
  · rw [spawnLoop_map_x]
    refine List.Nodup.map_on ?_ (pickLanes_nodup _ _ _ (by simp))
    intro x hx y hy hxy
    have hx3 := pickLanes_subset _ _ _ x hx
    have hy3 := pickLanes_subset _ _ _ y hy
    fin_cases hx3 <;> fin_cases hy3 <;>
      first
      | rfl
      | (exfalso; norm_num [lanePositions, laneWidth] at hxy)
  · rw [spawnLoop_length, pickLanes_length]
    split_ifs <;> simp

/-- C9: the `Shift` handler sets the boosting flag only when fuel
strictly exceeds 10; any activation input arriving with fuel at or below
10 leaves the flag unchanged. -/
theorem boost_activation_gated (s : GameState) :
    (s.boostFuel ≤ 10 → (keydown s Key.shift).isBoosting = s.isBoosting) ∧
    ((keydown s Key.shift).isBoosting = true → s.isBoosting = true ∨ 10 < s.boostFuel) := by
  constructor
  · intro hf
    by_cases hg : s.gameOver
    · simp [keydown, hg]
    · simp [keydown, hg, not_lt.2 hf]
  · intro hb
    by_cases hg : s.gameOver
    · left
      simpa [keydown, hg] using hb
    · by_cases hf : s.boostFuel > 10
      · right
        exact hf
      · left
        simpa [keydown, hg, hf] using hb

/-- Witness for C9: an activation input with fuel 5 is ignored. -/
theorem boost_activation_gated_witness :
    (keydown lowFuelState Key.shift).isBoosting = lowFuelState.isBoosting :=
  (boost_activation_gated lowFuelState).1 (by norm_num [lowFuelState, demoState])

/-- C2: the score never decreases: the per-frame continuous increment
`floor(speed^2 * delta * 2)` is nonnegative for a nonnegative time step,
the only discrete change is the nonnegative near-miss bonus, and neither
input handler touches the score. -/
theorem score_nondecreasing (s : GameState) (delta : ℚ) (rand : List ℚ) (rIv : ℚ)
    (k k2 : Key) (hdelta : 0 ≤ delta) :
    s.score ≤ (animateFrame s delta rand rIv).score ∧
    (keydown s k).score = s.score ∧ (keyup s k2).score = s.score := by
  refine ⟨?_, ?_, ?_⟩
  · cases hg : s.gameOver with
    | true => simp [animateFrame, hg]
    | false =>
      rw [animateFrame_eq s delta rand rIv hg]
      have hmid : (midState s delta rand rIv).score =
          s.score + ⌊s.speed ^ 2 * delta * scoreMultiplier⌋ := rfl
      have hfl : (0 : ℤ) ≤ ⌊s.speed ^ 2 * delta * scoreMultiplier⌋ := by
        rw [Int.le_floor]
        push_cast
        have h2 : (0 : ℚ) ≤ scoreMultiplier := by norm_num [scoreMultiplier]
        positivity
      have hchk := check_score_ge (midState s delta rand rIv) delta
      rw [hmid] at hchk
      linarith
  · cases k <;> simp [keydown, apply_ite GameState.score]
  · cases k2 <;> simp [keyup, apply_ite GameState.score]

/-- Witness for C2: one frame from the overlapping demo state with a
1-second step. -/
theorem score_nondecreasing_witness :
    demoState.score ≤ (animateFrame demoState 1 [] 0).score :=
  (score_nondecreasing demoState 1 [] 0 Key.left Key.shift (by norm_num)).1

/-- C7: one collision pass either leaves the score unchanged or adds
exactly 50 with the cooldown reset to 0.5 (so a second qualifying
obstacle in the same pass cannot add another bonus), and a pass entered
with a still-positive cooldown after the per-frame decrement adds no
bonus at all. -/
theorem near_miss_once_per_window (s : GameState) (delta : ℚ) :
    ((checkCollisionsAndNearMisses s delta).score = s.score ∨
      ((checkCollisionsAndNearMisses s delta).score = s.score + 50 ∧
        (checkCollisionsAndNearMisses s delta).nearMissCooldown = 1 / 2)) ∧
    (0 < (if s.nearMissCooldown > 0 then s.nearMissCooldown - delta
        else s.nearMissCooldown) →
      (checkCollisionsAndNearMisses s delta).score = s.score) := by
  cases hg : s.gameOver with
  | true => exact ⟨Or.inl (by simp [checkCollisionsAndNearMisses, hg]),
      fun _ => by simp [checkCollisionsAndNearMisses, hg]⟩
  | false =>
    simp only [checkCollisionsAndNearMisses, hg, Bool.false_eq_true, if_false]
    constructor
    · rcases checkLoop_score_cases s.carX s.carZ s.isBoosting (s.carZ + 100)
        s.buildings.reverse s.score (if s.nearMissCooldown > 0 then s.nearMissCooldown - delta
          else s.nearMissCooldown) with hc | hc
      · exact Or.inl hc.1
      · exact Or.inr ⟨hc.1, hc.2⟩
    · intro hpos
      exact (checkLoop_frozen_of_pos s.carX s.carZ s.isBoosting (s.carZ + 100)
        s.buildings.reverse s.score _ hpos).1

/-- Witness for C7: a pass entered mid-window (cooldown 0.5, step 0.1)
leaves the score unchanged. -/
theorem near_miss_once_per_window_witness :
    (checkCollisionsAndNearMisses coolState (1 / 10)).score = coolState.score :=
  (near_miss_once_per_window coolState (1 / 10)).2
    (by norm_num [coolState, demoState])

/-- C10: after the speed update of a frame, the speed is at most
`currentMaxSpeed` (read from the frame-entry boosting flag, as in the
source); in particular on a frame entered with the boosting flag clear
the speed ends at most `maxSpeed`, and any residual speed at least
`maxSpeed + deceleration` is snapped to exactly `maxSpeed` in that
single frame by the final clamp. -/
theorem speed_capped_by_current_max (s : GameState) (delta : ℚ) (rand : List ℚ) (rIv : ℚ)
    (hover : s.gameOver = false) :
    (animateFrame s delta rand rIv).speed ≤
      (if s.isBoosting then maxSpeed * boostSpeedMultiplier else maxSpeed) ∧
    (s.isBoosting = false → (animateFrame s delta rand rIv).speed ≤ maxSpeed) ∧
    (s.isBoosting = false → maxSpeed + deceleration ≤ s.speed →
      (animateFrame s delta rand rIv).speed = maxSpeed) := by
  have hsp : (animateFrame s delta rand rIv).speed =
      updateSpeed s.speed
        (max s.targetSpeed (baseMinSpeed + s.distanceTraveled * speedIncreaseRate))
        (baseMinSpeed + s.distanceTraveled * speedIncreaseRate)
        (if s.isBoosting then maxSpeed * boostSpeedMultiplier else maxSpeed)
        (if s.isBoosting then acceleration * (9 / 5) else acceleration) := by
    rw [animateFrame_eq s delta rand rIv hover,
      (check_preserves (midState s delta rand rIv) delta).1, midState_speed]
  refine ⟨?_, ?_, ?_⟩
  · rw [hsp]
    exact updateSpeed_le_max _ _ _ _ _
  · intro hb
    rw [hsp]
    simp only [hb, Bool.false_eq_true, if_false]
    exact updateSpeed_le_max _ _ _ _ _
  · intro hb hbig
    rw [hsp]
    simp only [hb, Bool.false_eq_true, if_false]
    exact updateSpeed_snap _ _ _ _ (by norm_num [acceleration]) hbig

/-- Witness for C10: residual speed 15 with the boosting flag clear is
snapped to `maxSpeed` in one frame. -/
theorem speed_capped_by_current_max_witness :
    (animateFrame boostEndState 1 [] 0).speed = maxSpeed :=
  (speed_capped_by_current_max boostEndState 1 [] 0 rfl).2.2 rfl
    (by norm_num [boostEndState, demoState, maxSpeed, deceleration])

/-- C6: a frame sets `minSpeed` to
`baseMinSpeed + distanceTraveled * speedIncreaseRate` (computed from the
frame-entry distance); under the session invariants (`speed >= 0`,
`distance >= 0`, `minSpeed` at most the ramp value) the floor and the
travelled distance never decrease across the frame, `targetSpeed` is at
least `minSpeed` after the kinematics step, and a speed-down input
leaves `targetSpeed` at least the current `minSpeed`. -/
theorem min_speed_floor_ramp (s : GameState) (delta : ℚ) (rand : List ℚ) (rIv : ℚ)
    (hover : s.gameOver = false) (hspeed : 0 ≤ s.speed) (hdist : 0 ≤ s.distanceTraveled)
    (hms : s.minSpeed ≤ baseMinSpeed + s.distanceTraveled * speedIncreaseRate) :
    (animateFrame s delta rand rIv).minSpeed =
      baseMinSpeed + s.distanceTraveled * speedIncreaseRate ∧
    s.minSpeed ≤ (animateFrame s delta rand rIv).minSpeed ∧
    s.distanceTraveled ≤ (animateFrame s delta rand rIv).distanceTraveled ∧
    (animateFrame s delta rand rIv).minSpeed ≤ (animateFrame s delta rand rIv).targetSpeed ∧
    s.minSpeed ≤ (keydown s Key.down).targetSpeed := by
  have heq := animateFrame_eq s delta rand rIv hover
  have hpres := check_preserves (midState s delta rand rIv) delta
  have hmin : (animateFrame s delta rand rIv).minSpeed =
      baseMinSpeed + s.distanceTraveled * speedIncreaseRate := by
    rw [heq, hpres.2.2.1]
    rfl
  have hts : (animateFrame s delta rand rIv).targetSpeed =
      max s.targetSpeed (baseMinSpeed + s.distanceTraveled * speedIncreaseRate) := by
    rw [heq, hpres.2.1]
    rfl
  have hdi : (animateFrame s delta rand rIv).distanceTraveled =
      s.distanceTraveled +
        updateSpeed s.speed
          (max s.targetSpeed (baseMinSpeed + s.distanceTraveled * speedIncreaseRate))
          (baseMinSpeed + s.distanceTraveled * speedIncreaseRate)
          (if s.isBoosting then maxSpeed * boostSpeedMultiplier else maxSpeed)
          (if s.isBoosting then acceleration * (9 / 5) else acceleration) := by
    rw [heq, hpres.2.2.2.1]
    rfl
  have hms1 : (0 : ℚ) ≤ baseMinSpeed + s.distanceTraveled * speedIncreaseRate := by
    have : (0 : ℚ) ≤ s.distanceTraveled * speedIncreaseRate :=
      mul_nonneg hdist (by norm_num [speedIncreaseRate])
    norm_num [baseMinSpeed]
    linarith
  have hcm : (0 : ℚ) ≤ (if s.isBoosting then maxSpeed * boostSpeedMultiplier else maxSpeed) := by
    split_ifs <;> norm_num [maxSpeed, boostSpeedMultiplier]
  have hca : (0 : ℚ) ≤ (if s.isBoosting then acceleration * (9 / 5) else acceleration) := by
    split_ifs <;> norm_num [acceleration]
  refine ⟨hmin, ?_, ?_, ?_, ?_⟩
  · rw [hmin]
    exact hms
  · rw [hdi]
    have := updateSpeed_nonneg s.speed
      (max s.targetSpeed (baseMinSpeed + s.distanceTraveled * speedIncreaseRate))
      (baseMinSpeed + s.distanceTraveled * speedIncreaseRate)
      (if s.isBoosting then maxSpeed * boostSpeedMultiplier else maxSpeed)
      (if s.isBoosting then acceleration * (9 / 5) else acceleration)
      hspeed hms1 hcm hca
    linarith
  · rw [hmin, hts]
    exact le_sup_right
  · have hk : (keydown s Key.down).targetSpeed = max (s.targetSpeed - 1 / 2) s.minSpeed := by
      simp [keydown, hover]
    rw [hk]
    exact le_sup_right

/-- Witness for C6: one frame and one speed-down event from the demo
state. -/
theorem min_speed_floor_ramp_witness :
    (animateFrame demoState 1 [] 0).minSpeed =
      baseMinSpeed + demoState.distanceTraveled * speedIncreaseRate ∧
    demoState.minSpeed ≤ (keydown demoState Key.down).targetSpeed := by
  have h := min_speed_floor_ramp demoState 1 [] 0 rfl (by norm_num [demoState])
    (by norm_num [demoState])
    (by norm_num [demoState, baseMinSpeed, speedIncreaseRate])
  exact ⟨h.1, h.2.2.2.2⟩

/-- Refutation of C4 as stated: in a reachable late-session frame
(`highFloorState`: distance 110000, so the floor is 12 while
`maxSpeed = 10`, with residual boost speed 14), the frame satisfies the
premise `speed > targetSpeed`, yet the final clamp to `currentMaxSpeed`
drags the post-step speed to 10, strictly below the `minSpeed` floor of
12. -/
theorem decel_floor_counterexample :
    highFloorState.speed > (animateFrame highFloorState (1 / 60) [] 0).targetSpeed ∧
    (animateFrame highFloorState (1 / 60) [] 0).speed <
      (animateFrame highFloorState (1 / 60) [] 0).minSpeed := by
  norm_num [animateFrame, midState, highFloorState, checkCollisionsAndNearMisses, checkLoop,
    boostTick, updateSpeed, updateRoadSegments, sortDesc, insertDesc, maxSpeed, baseMinSpeed,
    speedIncreaseRate, acceleration, deceleration, laneWidth, roadSegmentLength, visibleSegments,
    boostMaxFuel, boostConsumeRate, boostRegenRate, boostSpeedMultiplier, scoreMultiplier,
    spawnDistanceAhead, min_def, max_def]

/-- C4 amended: when the frame decelerates (`speed > targetSpeed` at the
update), the post-step speed is at least
`min minSpeed currentMaxSpeed`; in particular it is at least the
`minSpeed` floor whenever the floor does not exceed
`currentMaxSpeed`. -/
theorem decel_floor_amended (s : GameState) (delta : ℚ) (rand : List ℚ) (rIv : ℚ)
    (hover : s.gameOver = false)
    (hdecel : (animateFrame s delta rand rIv).targetSpeed < s.speed) :
    min (animateFrame s delta rand rIv).minSpeed
        (if s.isBoosting then maxSpeed * boostSpeedMultiplier else maxSpeed) ≤
      (animateFrame s delta rand rIv).speed ∧
    ((animateFrame s delta rand rIv).minSpeed ≤
        (if s.isBoosting then maxSpeed * boostSpeedMultiplier else maxSpeed) →
      (animateFrame s delta rand rIv).minSpeed ≤ (animateFrame s delta rand rIv).speed) := by
  have heq := animateFrame_eq s delta rand rIv hover
  have hpres := check_preserves (midState s delta rand rIv) delta
  have hsp : (animateFrame s delta rand rIv).speed =
      updateSpeed s.speed
        (max s.targetSpeed (baseMinSpeed + s.distanceTraveled * speedIncreaseRate))
        (baseMinSpeed + s.distanceTraveled * speedIncreaseRate)
        (if s.isBoosting then maxSpeed * boostSpeedMultiplier else maxSpeed)
        (if s.isBoosting then acceleration * (9 / 5) else acceleration) := by
    rw [heq, hpres.1, midState_speed]
  have hmin : (animateFrame s delta rand rIv).minSpeed =
      baseMinSpeed + s.distanceTraveled * speedIncreaseRate := by
    rw [heq, hpres.2.2.1]
    rfl
  have hts : (animateFrame s delta rand rIv).targetSpeed =
      max s.targetSpeed (baseMinSpeed + s.distanceTraveled * speedIncreaseRate) := by
    rw [heq, hpres.2.1]
    rfl
  rw [hts] at hdecel
  have hge := updateSpeed_decel_ge s.speed
    (max s.targetSpeed (baseMinSpeed + s.distanceTraveled * speedIncreaseRate))
    (baseMinSpeed + s.distanceTraveled * speedIncreaseRate)
    (if s.isBoosting then maxSpeed * boostSpeedMultiplier else maxSpeed)
    (if s.isBoosting then acceleration * (9 / 5) else acceleration) hdecel
  constructor
  · rw [hsp, hmin]
    exact hge
  · intro hle
    rw [hmin] at hle
    rw [hsp, hmin]
    calc baseMinSpeed + s.distanceTraveled * speedIncreaseRate =
        min (baseMinSpeed + s.distanceTraveled * speedIncreaseRate)
          (if s.isBoosting then maxSpeed * boostSpeedMultiplier else maxSpeed) :=
          (inf_eq_left.2 hle).symm
      _ ≤ _ := hge

/-- Witness for the amended C4 at the late-session counterexample state:
the post-step speed still dominates `min minSpeed currentMaxSpeed`. -/
theorem decel_floor_amended_witness :
    min (animateFrame highFloorState (1 / 60) [] 0).minSpeed
        (if highFloorState.isBoosting then maxSpeed * boostSpeedMultiplier else maxSpeed) ≤
      (animateFrame highFloorState (1 / 60) [] 0).speed :=
  (decel_floor_amended highFloorState (1 / 60) [] 0 rfl
    (by norm_num [animateFrame, midState, highFloorState, checkCollisionsAndNearMisses,
      checkLoop, boostTick, updateSpeed, updateRoadSegments, sortDesc, insertDesc, maxSpeed,
      baseMinSpeed, speedIncreaseRate, acceleration, deceleration, laneWidth, roadSegmentLength,
      visibleSegments, boostMaxFuel, boostConsumeRate, boostRegenRate, boostSpeedMultiplier,
      scoreMultiplier, spawnDistanceAhead, min_def, max_def])).1

/-- Refutation of C5 as stated: from `emptyRoadState` (empty segment
collection, vehicle at z = 5) the frame seeds exactly one segment, but
at `carZ - 625` (half a window ahead of the vehicle), not centered on
the vehicle longitudinal position. -/
theorem seed_segment_counterexample :
    (animateFrame emptyRoadState (1 / 60) [] 0).roadSegments =
      [(animateFrame emptyRoadState (1 / 60) [] 0).carZ - 625] ∧
    (animateFrame emptyRoadState (1 / 60) [] 0).roadSegments ≠
      [(animateFrame emptyRoadState (1 / 60) [] 0).carZ] := by
  norm_num [animateFrame, midState, emptyRoadState, checkCollisionsAndNearMisses, checkLoop,
    boostTick, updateSpeed, updateRoadSegments, sortDesc, insertDesc, maxSpeed, baseMinSpeed,
    speedIncreaseRate, acceleration, deceleration, laneWidth, roadSegmentLength, visibleSegments,
    boostMaxFuel, boostConsumeRate, boostRegenRate, boostSpeedMultiplier, scoreMultiplier,
    spawnDistanceAhead, min_def, max_def]

/-- C5 amended: when the segment collection is empty during a frame
update, a single segment is seeded in place of the coverage-extension
logic for that frame, at the vehicle longitudinal position minus
`visibleSegments / 2 * roadSegmentLength` (625 world units ahead of the
vehicle), and it survives the retirement filter. -/
theorem seed_segment_amended (s : GameState) (delta : ℚ) (rand : List ℚ) (rIv : ℚ)
    (hover : s.gameOver = false) (hempty : s.roadSegments = []) :
    (animateFrame s delta rand rIv).roadSegments =
      [(animateFrame s delta rand rIv).carZ -
        roadSegmentLength * (visibleSegments / 2)] := by
  have heq := animateFrame_eq s delta rand rIv hover
  have hpres := check_preserves (midState s delta rand rIv) delta
  rw [heq, hpres.2.2.2.2.2.2.1, hpres.2.2.2.2.2.2.2.1]
  have h1 : (midState s delta rand rIv).roadSegments =
      updateRoadSegments ((midState s delta rand rIv).carZ) s.roadSegments := rfl
  rw [h1, hempty]
  unfold updateRoadSegments
  have hcond : (midState s delta rand rIv).carZ - roadSegmentLength * (visibleSegments / 2) ≤
      (midState s delta rand rIv).carZ + roadSegmentLength * (visibleSegments / 2 + 4) := by
    norm_num [roadSegmentLength, visibleSegments]
    linarith
  simp [sortDesc, insertDesc, List.filter_cons, hcond]

/-- Witness for the amended C5 at the empty-road state. -/
theorem seed_segment_amended_witness :
    (animateFrame emptyRoadState (1 / 60) [] 0).roadSegments =
      [(animateFrame emptyRoadState (1 / 60) [] 0).carZ -
        roadSegmentLength * (visibleSegments / 2)] :=
  seed_segment_amended emptyRoadState (1 / 60) [] 0 rfl rfl

end NeonRunner
